import Mathlib

/-!
Shallow embedding of `src/pkg/preprocessing/chat_completions/cgo_functions.c`
(the full lifecycle-and-cache variant; the two header-only variants are
largely redundant lifecycle stubs and are not specified).

The C file manages process-global state: three cached Python object handles
(`g_chat_template_module`, `g_render_jinja_template_func`,
`g_get_model_chat_template_func`), the flags `g_initialized`,
`g_python_initialized`, `g_process_initialized`, `g_finalized`, the pid
`g_init_pid`, and two lazily allocated `PyThread_type_lock` handles.
Python/C API primitives (module import, dict lookup, callability check,
string encode/decode, object call) are modelled by an environment record
`PyEnv` that fixes their outcomes; handles are `Nat`, a NULL pointer is
`none`. Each C function becomes a Lean function that threads the state
explicitly and returns its status plus the diagnostics it prints.
-/

namespace CgoFunctions

/-- Outcomes of the Python/C API primitives the file calls.  Handles are
natural numbers; a returned `none` is a NULL pointer.  `invoke f t` is the
result of `PyObject_CallObject` on callable handle `f` (possibly NULL, as
the render path can pass the NULL global) applied to the one-element tuple
holding the encoding of text `t`: `none` means the call produced no result,
`some r` means it produced a native string whose text is `r`.  `encodeOk`
models `PyUnicode_FromString` success, `packOk` models `PyTuple_Pack`
success, `decodeOk` models `PyUnicode_AsUTF8` success on the result, and
`allocLockOk` models `PyThread_allocate_lock` success. -/
structure PyEnv where
  allocLockOk : Bool
  importModule : String → Option Nat
  moduleGetDict : Nat → Option Nat
  dictGetItem : Nat → String → Option Nat
  callableCheck : Nat → Bool
  encodeOk : String → Bool
  packOk : String → Bool
  invoke : Option Nat → String → Option String
  decodeOk : String → Bool

/-- The process-global state of `cgo_functions.c` (lines 21-35).  The field
names follow the C globals.  `pyRuntimeUp` models `Py_IsInitialized()`
(whether the embedded interpreter instance is alive) and `startCount`
counts the `Py_Initialize()` invocations that started it.
`pythonInitLockAlloc` and `initLockAlloc` record whether
`g_python_init_lock` and `g_init_lock` have been allocated. -/
structure CState where
  g_chat_template_module : Option Nat
  g_render_jinja_template_func : Option Nat
  g_get_model_chat_template_func : Option Nat
  g_initialized : Bool
  g_python_initialized : Bool
  g_process_initialized : Bool
  g_finalized : Bool
  g_init_pid : Nat
  pyRuntimeUp : Bool
  startCount : Nat
  pythonInitLockAlloc : Bool
  initLockAlloc : Bool
deriving DecidableEq, Repr

/-- The process-start state: no handles, every flag clear, no locks
allocated, interpreter not yet started. -/
def initState : CState :=
  ⟨none, none, none, false, false, false, false, 0, false, 0, false, false⟩

/-- Embedding of `Py_InitializeGo` (lines 40-86) under the sequential
semantics (a single caller at a time; the concurrent behaviour of the
unchecked `NOWAIT_LOCK` acquisition at line 60 is modelled separately by
`InitRace`).  Returns the C status, the new state and the printed
diagnostics. -/
def Py_InitializeGo (env : PyEnv) (pid : Nat) (s : CState) :
    Int × CState × List String :=
  if s.g_process_initialized then
    if s.g_init_pid ≠ pid then
      (0, s, ["[C] Py_InitializeGo WARNING - Different PID trying to initialize"])
    else
      (0, s, ["[C] Py_InitializeGo - Already initialized in this process"])
  else if ¬ s.pythonInitLockAlloc ∧ ¬ env.allocLockOk then
    (-1, s, ["[C] Py_InitializeGo ERROR - Failed to allocate Python init lock"])
  else
    -- line 60: PyThread_acquire_lock(g_python_init_lock, NOWAIT_LOCK),
    -- return value unchecked; uncontended in the sequential semantics
    let s1 := { s with pythonInitLockAlloc := true }
    if s1.g_python_initialized then
      (0, s1, ["[C] Py_InitializeGo - Python already initialized globally"])
    else
      let s2 :=
        if ¬ s1.pyRuntimeUp then
          -- lines 69-78: Py_Initialize, PyEval_InitThreads, release the GIL
          { s1 with pyRuntimeUp := true, startCount := s1.startCount + 1 }
        else s1
      (0, { s2 with g_python_initialized := true, g_process_initialized := true,
                    g_init_pid := pid }, [])

/-- The observable steps of `Py_FinalizeGo`, in the order the body performs
them, used to state the ordering contract of the finalizer. -/
inductive FinEvent
  | skipAlreadyFinalized
  | setFinalizedFlag
  | releaseRenderFunc
  | releaseLookupFunc
  | releaseModule
  | resetInitFlags
deriving DecidableEq, Repr

/-- Embedding of `Py_FinalizeGo` (lines 89-118).  Returns the new state and
the trace of observable steps in execution order.  The body never touches
`pyRuntimeUp`: the C code resets flags and drops handles `without
finalizing Python` (comment at lines 113-114), and it never clears
`g_finalized`. -/
def Py_FinalizeGo (s : CState) : CState × List FinEvent :=
  if s.g_finalized then
    (s, [FinEvent.skipAlreadyFinalized])
  else
    let s1 := { s with g_finalized := true }
    let e2 : List FinEvent :=
      match s1.g_render_jinja_template_func with
      | some _ => [FinEvent.releaseRenderFunc]
      | none => []
    let s2 := { s1 with g_render_jinja_template_func := none }
    let e3 : List FinEvent :=
      match s2.g_get_model_chat_template_func with
      | some _ => [FinEvent.releaseLookupFunc]
      | none => []
    let s3 := { s2 with g_get_model_chat_template_func := none }
    let e4 : List FinEvent :=
      match s3.g_chat_template_module with
      | some _ => [FinEvent.releaseModule]
      | none => []
    let s4 := { s3 with g_chat_template_module := none }
    ({ s4 with g_python_initialized := false, g_process_initialized := false,
               g_initialized := false },
     FinEvent.setFinalizedFlag :: (e2 ++ e3 ++ e4 ++ [FinEvent.resetInitFlags]))

/-- Embedding of `Py_InitChatTemplateModule` (lines 148-225) under the
sequential semantics.  The body assigns `PyImport_ImportModule` and each
`PyDict_GetItemString` result directly into the corresponding global
(lines 181, 200, 210) before checking it, so a failing later step leaves
the earlier assignments in place. -/
def Py_InitChatTemplateModule (env : PyEnv) (s : CState) :
    Int × CState × List String :=
  if ¬ s.initLockAlloc ∧ ¬ env.allocLockOk then
    (-1, s, ["[C] Py_InitChatTemplateModule ERROR - Failed to allocate module init lock"])
  else
    -- line 159: PyThread_acquire_lock(g_init_lock, NOWAIT_LOCK), unchecked
    let s1 := { s with initLockAlloc := true }
    if s1.g_initialized then
      (0, s1, ["[C] Py_InitChatTemplateModule - Already initialized globally, returning"])
    else if ¬ s1.g_python_initialized then
      (-1, s1, ["[C] Py_InitChatTemplateModule ERROR - Python not initialized"])
    else
      -- line 181: g_chat_template_module = PyImport_ImportModule(...)
      let mh := env.importModule "render_jinja_template_wrapper"
      let s2 := { s1 with g_chat_template_module := mh }
      match mh with
      | none =>
        (-1, s2, ["[C] Py_InitChatTemplateModule ERROR - Failed to import render_jinja_template_wrapper module"])
      | some m =>
        match env.moduleGetDict m with
        | none =>
          (-1, s2, ["[C] Py_InitChatTemplateModule ERROR - Failed to get module dictionary"])
        | some d =>
          -- line 200: g_render_jinja_template_func = PyDict_GetItemString(...)
          let rf := env.dictGetItem d "render_jinja_template"
          let s3 := { s2 with g_render_jinja_template_func := rf }
          if rf = none ∨ ¬ env.callableCheck (rf.getD 0) then
            (-1, s3, ["[C] Py_InitChatTemplateModule ERROR - render_jinja_template function not found or not callable"])
          else
            -- line 207: Py_INCREF keeps a durable reference (ownership retained)
            let gf := env.dictGetItem d "get_model_chat_template"
            let s4 := { s3 with g_get_model_chat_template_func := gf }
            if gf = none ∨ ¬ env.callableCheck (gf.getD 0) then
              (-1, s4, ["[C] Py_InitChatTemplateModule ERROR - get_model_chat_template function not found or not callable"])
            else
              (0, { s4 with g_initialized := true }, [])

/-- The intermediate handles a call creates: the encoded request string
(`py_json`), the one-element argument tuple (`args`), and the invocation
result (`py_result`). -/
inductive Interm
  | pyJson
  | argsTuple
  | pyResult
deriving DecidableEq, Repr

/-- A caller-owned text buffer: `strdup` models the duplication of the
native result into memory the caller owns. -/
structure OwnedStr where
  data : String
deriving DecidableEq, Repr

/-- Models `strdup`: the returned buffer holds a copy of the native text
and survives the release of the native handle it was copied from. -/
def strdup (s : String) : OwnedStr := ⟨s⟩

/-- What one call returns and leaves behind: the result (NULL on failure),
the intermediate handles still retained when the function returns (each
`Py_DECREF` removes its handle), the diagnostics printed, and how many
times `PyObject_CallObject` ran. -/
structure CallOutcome where
  result : Option OwnedStr
  live : List Interm
  diags : List String
  invokeCount : Nat
deriving DecidableEq, Repr

/-- Embedding of `Py_CallRenderJinjaTemplateInternal` (lines 242-301).
The guards are: `Py_IsInitialized()` and a NULL check on the input; there
is no check on the cached `g_render_jinja_template_func` handle.  The
`live` bookkeeping mirrors each creation and each `Py_DECREF` of the body
in source order. -/
def Py_CallRenderJinjaTemplateInternal (env : PyEnv) (s : CState)
    (input : Option String) : CallOutcome :=
  if ¬ s.pyRuntimeUp then
    ⟨none, [], ["[C] Py_CallRenderJinjaTemplateInternal ERROR - Python interpreter not initialized"], 0⟩
  else
    match input with
    | none =>
      ⟨none, [], ["[C] Py_CallRenderJinjaTemplateInternal ERROR - Input is NULL"], 0⟩
    | some t =>
      -- line 256: PyGILState_Ensure
      if ¬ env.encodeOk t then
        ⟨none, [], ["[C] Py_CallRenderJinjaTemplateInternal ERROR - Failed to create Python string"], 0⟩
      else
        let live1 : List Interm := [Interm.pyJson]
        if ¬ env.packOk t then
          ⟨none, live1.erase Interm.pyJson,
           ["[C] Py_CallRenderJinjaTemplateInternal ERROR - Failed to create args tuple"], 0⟩
        else
          let live2 := Interm.argsTuple :: live1
          -- line 275: PyObject_CallObject on the cached handle, unchecked
          let r := env.invoke s.g_render_jinja_template_func t
          -- lines 278-279: Py_DECREF(args); Py_DECREF(py_json)
          let live3 := (live2.erase Interm.argsTuple).erase Interm.pyJson
          match r with
          | none =>
            ⟨none, live3,
             ["[C] Py_CallRenderJinjaTemplateInternal ERROR - Python function returned NULL"], 1⟩
          | some nat =>
            let live4 := Interm.pyResult :: live3
            if env.decodeOk nat then
              -- strdup then Py_DECREF(py_result)
              ⟨some (strdup nat), live4.erase Interm.pyResult, [], 1⟩
            else
              ⟨none, live4.erase Interm.pyResult,
               ["[C] Py_CallRenderJinjaTemplateInternal ERROR - Failed to convert result to C string"], 1⟩

/-- Embedding of `Py_CallRenderJinjaTemplate` (lines 230-239): one call to
the internal function; on a NULL result it just returns NULL. -/
def Py_CallRenderJinjaTemplate (env : PyEnv) (s : CState)
    (input : Option String) : CallOutcome :=
  let r := Py_CallRenderJinjaTemplateInternal env s input
  match r.result with
  | some _ => r
  | none => r

/-- Embedding of `Py_CallGetModelChatTemplateInternal` (lines 316-397).
Unlike the render path, it guards the cached handle: NULL check at
line 325 and `PyCallable_Check` at line 333, each returning failure
before any invocation. -/
def Py_CallGetModelChatTemplateInternal (env : PyEnv) (s : CState)
    (input : Option String) : CallOutcome :=
  if ¬ s.g_python_initialized then
    ⟨none, [], ["[C] Py_CallGetModelChatTemplateInternal ERROR - Python not initialized"], 0⟩
  else
    match s.g_get_model_chat_template_func with
    | none =>
      ⟨none, [], ["[C] Py_CallGetModelChatTemplateInternal ERROR - Cached function is NULL"], 0⟩
    | some f =>
      if ¬ env.callableCheck f then
        ⟨none, [], ["[C] Py_CallGetModelChatTemplateInternal ERROR - Cached function is not callable"], 0⟩
      else
        match input with
        | none =>
          ⟨none, [], ["[C] Py_CallGetModelChatTemplateInternal ERROR - Input is NULL"], 0⟩
        | some t =>
          if ¬ env.encodeOk t then
            ⟨none, [], ["[C] Py_CallGetModelChatTemplateInternal ERROR - Failed to create Python string"], 0⟩
          else
            let live1 : List Interm := [Interm.pyJson]
            if ¬ env.packOk t then
              ⟨none, live1.erase Interm.pyJson,
               ["[C] Py_CallGetModelChatTemplateInternal ERROR - Failed to create args tuple"], 0⟩
            else
              let live2 := Interm.argsTuple :: live1
              let r := env.invoke (some f) t
              let live3 := (live2.erase Interm.argsTuple).erase Interm.pyJson
              match r with
              | none =>
                ⟨none, live3,
                 ["[C] Py_CallGetModelChatTemplateInternal ERROR - Python function returned NULL"], 1⟩
              | some nat =>
                let live4 := Interm.pyResult :: live3
                if env.decodeOk nat then
                  ⟨some (strdup nat), live4.erase Interm.pyResult, [], 1⟩
                else
                  ⟨none, live4.erase Interm.pyResult,
                   ["[C] Py_CallGetModelChatTemplateInternal ERROR - Failed to convert result to C string"], 1⟩

/-- Embedding of `Py_CallGetModelChatTemplate` (lines 304-313): one call to
the internal function; on a NULL result it just returns NULL. -/
def Py_CallGetModelChatTemplate (env : PyEnv) (s : CState)
    (input : Option String) : CallOutcome :=
  let r := Py_CallGetModelChatTemplateInternal env s input
  match r.result with
  | some _ => r
  | none => r

/-- The flag-reset and handle-release prelude of `Py_ReinitializeGo`
(lines 457-474): clears the three init flags and drops the three cached
handles; `g_finalized` and `g_init_pid` are not touched. -/
def resetForReinit (s : CState) : CState :=
  { s with g_initialized := false, g_python_initialized := false,
           g_process_initialized := false,
           g_render_jinja_template_func := none,
           g_get_model_chat_template_func := none,
           g_chat_template_module := none }

/-- Embedding of `Py_ReinitializeGo` (lines 456-490): reset and release,
then `Py_InitializeGo`, then `Py_InitChatTemplateModule`, returning the
first nonzero status. -/
def Py_ReinitializeGo (env : PyEnv) (pid : Nat) (s : CState) :
    Int × CState × List String :=
  let s0 := resetForReinit s
  let r1 := Py_InitializeGo env pid s0
  if r1.1 ≠ 0 then
    (r1.1, r1.2.1,
     r1.2.2 ++ ["[C] Py_ReinitializeGo ERROR - Failed to re-initialize Python"])
  else
    let r2 := Py_InitChatTemplateModule env r1.2.1
    if r2.1 ≠ 0 then
      (r2.1, r2.2.1,
       r1.2.2 ++ r2.2.2 ++ ["[C] Py_ReinitializeGo ERROR - Failed to re-initialize chat template module"])
    else
      (0, r2.2.1, r1.2.2 ++ r2.2.2)

end CgoFunctions

namespace InitRace

/-!
A two-thread interleaving model of the check-and-set sections of
`Py_InitializeGo` (lines 60-83) and `Py_InitChatTemplateModule`
(lines 159-223).  Both sections run
`PyThread_acquire_lock(lock, NOWAIT_LOCK)` without checking the returned
success flag, then test the guard flag, then run the initialization body,
then set the flag and release the lock.  `PyThread_acquire_lock` with
`NOWAIT_LOCK` does not block: when the lock is already held it returns
failure immediately — and the source discards that return value, so the
thread proceeds into the section regardless.
-/

/-- Program counter of one thread through the section: at the unchecked
NOWAIT acquire, at the guard-flag check, inside the initialization body,
or finished. -/
inductive Pc
  | acq
  | chk
  | body
  | fin
deriving DecidableEq, Repr

/-- The shared state plus both program counters.  `flagSet` is the guard
flag the section protects (`g_python_initialized` resp. `g_initialized`);
`bodyRuns` counts executions of the initialization body (for
`Py_InitializeGo`, runtime starts). -/
structure Race where
  pcA : Pc
  pcB : Pc
  lockHeld : Bool
  flagSet : Bool
  bodyRuns : Nat
deriving DecidableEq, Repr

/-- One step of one thread.  At `acq` the thread performs the NOWAIT
acquisition: if the lock is free it takes it, if it is held the
acquisition fails — but since the source never checks the result, the
thread advances to the guard check either way.  At `chk` it returns (and
releases) when the flag is already set, else it enters the body.  At
`body` it runs the initialization, sets the flag and releases the lock. -/
def stepThread (pc : Pc) (st : Bool × Bool × Nat) : Pc × Bool × Bool × Nat :=
  match pc, st with
  | Pc.acq, (_, flag, n) => (Pc.chk, true, flag, n)
  | Pc.chk, (lock, flag, n) =>
    if flag then (Pc.fin, false, flag, n) else (Pc.body, lock, flag, n)
  | Pc.body, (_, _, n) => (Pc.fin, false, true, n + 1)
  | Pc.fin, (lock, flag, n) => (Pc.fin, lock, flag, n)

/-- Run one step of thread A (`who = false`) or thread B (`who = true`). -/
def stepSys (st : Race) (who : Bool) : Race :=
  if who then
    let r := stepThread st.pcB (st.lockHeld, st.flagSet, st.bodyRuns)
    { st with pcB := r.1, lockHeld := r.2.1, flagSet := r.2.2.1, bodyRuns := r.2.2.2 }
  else
    let r := stepThread st.pcA (st.lockHeld, st.flagSet, st.bodyRuns)
    { st with pcA := r.1, lockHeld := r.2.1, flagSet := r.2.2.1, bodyRuns := r.2.2.2 }

/-- Run a schedule: the list picks which thread steps next. -/
def runSched (sched : List Bool) (st : Race) : Race :=
  sched.foldl stepSys st

/-- Both threads about to run the section, lock free, flag clear. -/
def raceStart : Race := ⟨Pc.acq, Pc.acq, false, false, 0⟩

end InitRace

open CgoFunctions

/-- A fully functional environment: the wrapper module imports as handle 10,
its dictionary is handle 20, the two entry points resolve to the callable
handles 30 and 31, marshalling always succeeds, and each entry point maps a
nonempty request `t` to a result text (and produces no result on the empty
string). -/
def envOk : PyEnv where
  allocLockOk := true
  importModule := fun n => if n = "render_jinja_template_wrapper" then some 10 else none
  moduleGetDict := fun m => if m = 10 then some 20 else none
  dictGetItem := fun d k =>
    if d = 20 ∧ k = "render_jinja_template" then some 30
    else if d = 20 ∧ k = "get_model_chat_template" then some 31
    else none
  callableCheck := fun f => f == 30 || f == 31
  encodeOk := fun _ => true
  packOk := fun _ => true
  invoke := fun f t =>
    if t = "" then none
    else if f = some 30 then some (String.append "rendered:" t)
    else if f = some 31 then some (String.append "template:" t)
    else none
  decodeOk := fun _ => true

/-- `envOk` except that resolving `get_model_chat_template` fails: the dict
lookup for the second entry point returns NULL. -/
def envPartial : PyEnv :=
  { envOk with
    dictGetItem := fun d k =>
      if d = 20 ∧ k = "render_jinja_template" then some 30 else none }

/-- `envOk` except that `PyThread_allocate_lock` fails. -/
def envFail : PyEnv := { envOk with allocLockOk := false }

/-- State after a fully successful `Py_InitializeGo` (pid 42) and
`Py_InitChatTemplateModule` under `envOk`. -/
def sReady : CState :=
  ⟨some 10, some 30, some 31, true, true, true, false, 42, true, 1, true, true⟩

/-- State after `Py_InitializeGo` (pid 42) but before any cache
initialization. -/
def sPreCache : CState :=
  ⟨none, none, none, false, true, true, false, 42, true, 1, true, false⟩

/-- The wrapper adds nothing to the internal render call: same outcome. -/
theorem render_wrapper_eq (env : PyEnv) (s : CState) (input : Option String) :
    Py_CallRenderJinjaTemplate env s input =
      Py_CallRenderJinjaTemplateInternal env s input := by
  cases h : (Py_CallRenderJinjaTemplateInternal env s input).result <;>
    simp [Py_CallRenderJinjaTemplate, h]

/-- The wrapper adds nothing to the internal lookup call: same outcome. -/
theorem lookup_wrapper_eq (env : PyEnv) (s : CState) (input : Option String) :
    Py_CallGetModelChatTemplate env s input =
      Py_CallGetModelChatTemplateInternal env s input := by
  cases h : (Py_CallGetModelChatTemplateInternal env s input).result <;>
    simp [Py_CallGetModelChatTemplate, h]

/-- The internal render call runs `PyObject_CallObject` at most once. -/
theorem render_invoke_le_one (env : PyEnv) (s : CState) (input : Option String) :
    (Py_CallRenderJinjaTemplateInternal env s input).invokeCount ≤ 1 := by
  unfold Py_CallRenderJinjaTemplateInternal
  dsimp only []
  repeat' split
  all_goals first
    | decide
    | simp

/-- The internal lookup call runs `PyObject_CallObject` at most once. -/
theorem lookup_invoke_le_one (env : PyEnv) (s : CState) (input : Option String) :
    (Py_CallGetModelChatTemplateInternal env s input).invokeCount ≤ 1 := by
  unfold Py_CallGetModelChatTemplateInternal
  dsimp only []
  repeat' split
  all_goals first
    | decide
    | simp

/-- C3: the caller-visible call wrappers are single pass-throughs with no
retry: `Py_CallRenderJinjaTemplate` returns exactly the outcome of one
invocation of `Py_CallRenderJinjaTemplateInternal`, and
`Py_CallGetModelChatTemplate` exactly that of one invocation of
`Py_CallGetModelChatTemplateInternal`; each internal call invokes the
cached callable at most once, so a failing attempt is returned as failure
with no second attempt. -/
theorem call_wrappers_single_pass (env : PyEnv) (s : CState) (input : Option String) :
    Py_CallRenderJinjaTemplate env s input =
      Py_CallRenderJinjaTemplateInternal env s input ∧
    Py_CallGetModelChatTemplate env s input =
      Py_CallGetModelChatTemplateInternal env s input ∧
    (Py_CallRenderJinjaTemplateInternal env s input).invokeCount ≤ 1 ∧
    (Py_CallGetModelChatTemplateInternal env s input).invokeCount ≤ 1 :=
  ⟨render_wrapper_eq env s input, lookup_wrapper_eq env s input,
   render_invoke_le_one env s input, lookup_invoke_le_one env s input⟩

/-- C8: `Py_FinalizeGo` does not shut down the embedded runtime: the
interpreter-alive flag and the count of runtime starts are unchanged by any
Finalize call (as are the recorded init pid and the allocated locks); only
the cache handles and the lifecycle flags are torn down. -/
theorem finalize_preserves_embedded_runtime (s : CState) :
    ((Py_FinalizeGo s).1).pyRuntimeUp = s.pyRuntimeUp ∧
    ((Py_FinalizeGo s).1).startCount = s.startCount ∧
    ((Py_FinalizeGo s).1).g_init_pid = s.g_init_pid ∧
    ((Py_FinalizeGo s).1).pythonInitLockAlloc = s.pythonInitLockAlloc ∧
    ((Py_FinalizeGo s).1).initLockAlloc = s.initLockAlloc := by
  unfold Py_FinalizeGo
  split <;> exact ⟨rfl, rfl, rfl, rfl, rfl⟩



/-- Refutation of the claim that `Py_FinalizeGo` resets the finalized flag
to false: from a state with the flag clear, after Finalize the flag is set,
and the next Finalize therefore skips instead of repeating the sequence. -/
theorem finalize_leaves_finalized_set_cex :
    ((Py_FinalizeGo sReady).1).g_finalized = true ∧
    (Py_FinalizeGo (Py_FinalizeGo sReady).1).2 = [FinEvent.skipAlreadyFinalized] ∧
    (Py_FinalizeGo (Py_FinalizeGo sReady).1).1 = (Py_FinalizeGo sReady).1 := by
  decide

/-- C2 (amended): `Py_FinalizeGo` is idempotent through an early return and
proceeds in this order: it sets the finalized flag to true first, then
releases each of the three CachedModule handles that is present, then
resets the runtime-initialized, process-initialized and cache-initialized
flags to false.  The finalized flag itself is not reset — it stays true, so
after Finalize the three init flags are false, the handles are absent, and
a later Finalize returns immediately without repeating the sequence. -/
theorem finalize_order_and_reset (s : CState) (h : s.g_finalized = false) :
    (Py_FinalizeGo s).2 =
      FinEvent.setFinalizedFlag ::
        ((if (s.g_render_jinja_template_func).isSome then [FinEvent.releaseRenderFunc] else []) ++
         (if (s.g_get_model_chat_template_func).isSome then [FinEvent.releaseLookupFunc] else []) ++
         (if (s.g_chat_template_module).isSome then [FinEvent.releaseModule] else []) ++
         [FinEvent.resetInitFlags]) ∧
    ((Py_FinalizeGo s).1).g_python_initialized = false ∧
    ((Py_FinalizeGo s).1).g_process_initialized = false ∧
    ((Py_FinalizeGo s).1).g_initialized = false ∧
    ((Py_FinalizeGo s).1).g_finalized = true ∧
    ((Py_FinalizeGo s).1).g_render_jinja_template_func = none ∧
    ((Py_FinalizeGo s).1).g_get_model_chat_template_func = none ∧
    ((Py_FinalizeGo s).1).g_chat_template_module = none ∧
    Py_FinalizeGo ((Py_FinalizeGo s).1) =
      ((Py_FinalizeGo s).1, [FinEvent.skipAlreadyFinalized]) := by
  cases hr : s.g_render_jinja_template_func <;>
    cases hg : s.g_get_model_chat_template_func <;>
      cases hm : s.g_chat_template_module <;>
        simp [Py_FinalizeGo, h, hr, hg, hm]

/-- Witness for the finalize contract at a concrete initialized state. -/
theorem finalize_order_and_reset_witness :
    ((Py_FinalizeGo sReady).1).g_finalized = true ∧
    (Py_FinalizeGo sReady).2 =
      [FinEvent.setFinalizedFlag, FinEvent.releaseRenderFunc,
       FinEvent.releaseLookupFunc, FinEvent.releaseModule,
       FinEvent.resetInitFlags] := by
  have h := finalize_order_and_reset sReady rfl
  exact ⟨h.2.2.2.2.1, by rw [h.1]; rfl⟩

/-- The warning `Py_InitializeGo` prints when a different pid re-enters. -/
def pidWarning : String :=
  "[C] Py_InitializeGo WARNING - Different PID trying to initialize"

/-- N sequential `Py_InitializeGo` calls from process start: the state after
the n-th call. -/
def iterInit (env : PyEnv) (pid : Nat) : Nat → CState
  | 0 => initState
  | n + 1 => (Py_InitializeGo env pid (iterInit env pid n)).2.1

/-- When the process-initialized flag is set, `Py_InitializeGo` returns 0
and leaves the state untouched, whatever the recorded pid. -/
theorem initializeGo_already (env : PyEnv) (pid : Nat) (s : CState)
    (hp : s.g_process_initialized = true) :
    (Py_InitializeGo env pid s).1 = 0 ∧ (Py_InitializeGo env pid s).2.1 = s := by
  by_cases hq : s.g_init_pid = pid <;> simp [Py_InitializeGo, hp, hq]

/-- The first `Py_InitializeGo` from process start, when lock allocation
succeeds: starts the runtime once and sets the flags and the pid. -/
theorem initializeGo_first (env : PyEnv) (pid : Nat) (h : env.allocLockOk = true) :
    Py_InitializeGo env pid initState =
      (0, ⟨none, none, none, false, true, true, false, pid, true, 1, true, false⟩, []) := by
  simp [Py_InitializeGo, initState, h]

/-- After the first call every later state is the same. -/
theorem iterInit_stable (env : PyEnv) (pid : Nat) (h : env.allocLockOk = true)
    (n : Nat) :
    iterInit env pid (n + 1) =
      ⟨none, none, none, false, true, true, false, pid, true, 1, true, false⟩ := by
  induction n with
  | zero =>
    show (Py_InitializeGo env pid initState).2.1 = _
    rw [initializeGo_first env pid h]
  | succ k ih =>
    show (Py_InitializeGo env pid (iterInit env pid (k + 1))).2.1 = _
    rw [ih]
    exact (initializeGo_already env pid _ rfl).2

/-- C4: `Py_InitializeGo` is idempotent at process level.  With the
process-initialized flag set and a matching recorded pid it returns success
and changes no state; with the flag set and a differing pid it prints the
warning, still returns success, and corrects nothing; and N sequential
calls in one process (lock allocation succeeding) all return success while
the runtime is started exactly once. -/
theorem initializeGo_idempotent_processwide (env : PyEnv) (pid : Nat) (s : CState) :
    (s.g_process_initialized = true →
      (Py_InitializeGo env pid s).1 = 0 ∧ (Py_InitializeGo env pid s).2.1 = s) ∧
    (s.g_process_initialized = true → s.g_init_pid ≠ pid →
      (Py_InitializeGo env pid s).2.2 = [pidWarning] ∧
      (Py_InitializeGo env pid s).1 = 0 ∧ (Py_InitializeGo env pid s).2.1 = s) ∧
    (env.allocLockOk = true →
      ∀ n, (Py_InitializeGo env pid (iterInit env pid n)).1 = 0 ∧
        (iterInit env pid (n + 1)).startCount = 1) := by
  refine ⟨initializeGo_already env pid s, ?_, ?_⟩
  · intro hp hq
    refine ⟨?_, initializeGo_already env pid s hp⟩
    simp [Py_InitializeGo, hp, hq, pidWarning]
  · intro h n
    refine ⟨?_, by rw [iterInit_stable env pid h n]⟩
    cases n with
    | zero => rw [show iterInit env pid 0 = initState from rfl, initializeGo_first env pid h]
    | succ k =>
      rw [iterInit_stable env pid h k]
      exact (initializeGo_already env pid _ rfl).1

/-- Witness for the idempotence contract: concrete already-initialized
state with a differing pid, and three sequential calls from start. -/
theorem initializeGo_idempotent_processwide_witness :
    (Py_InitializeGo envOk 7 sReady).1 = 0 ∧
    (Py_InitializeGo envOk 7 sReady).2.1 = sReady ∧
    (Py_InitializeGo envOk 7 sReady).2.2 = [pidWarning] ∧
    (Py_InitializeGo envOk 7 (iterInit envOk 7 2)).1 = 0 ∧
    (iterInit envOk 7 3).startCount = 1 := by
  have h := initializeGo_idempotent_processwide envOk 7 sReady
  have h1 := h.1 rfl
  have h2 := h.2.1 rfl (by decide)
  have h3 := h.2.2 rfl 2
  exact ⟨h1.1, h1.2, h2.1, h3.1, h3.2⟩

/-- Full characterization of the internal render call: every intermediate
handle created for the call is released by return; a failing call prints a
diagnostic and fabricates nothing; a successful call returns an owned
duplicate of exactly the native text the invocation produced, the native
result handle having been released. -/
theorem render_internal_char (env : PyEnv) (s : CState) (input : Option String) :
    (Py_CallRenderJinjaTemplateInternal env s input).live = [] ∧
    ((Py_CallRenderJinjaTemplateInternal env s input).result = none →
      (Py_CallRenderJinjaTemplateInternal env s input).diags ≠ []) ∧
    (∀ r, (Py_CallRenderJinjaTemplateInternal env s input).result = some r →
      ∃ t nat, input = some t ∧
        env.invoke s.g_render_jinja_template_func t = some nat ∧
        env.decodeOk nat = true ∧ r = strdup nat) := by
  by_cases h0 : s.pyRuntimeUp
  case neg => simp [Py_CallRenderJinjaTemplateInternal, h0]
  case pos =>
    cases input with
    | none => simp [Py_CallRenderJinjaTemplateInternal, h0]
    | some t =>
      by_cases he : env.encodeOk t
      case neg => simp [Py_CallRenderJinjaTemplateInternal, h0, he]
      case pos =>
        by_cases hp : env.packOk t
        case neg => simp [Py_CallRenderJinjaTemplateInternal, h0, he, hp]
        case pos =>
          cases hi : env.invoke s.g_render_jinja_template_func t with
          | none => simp [Py_CallRenderJinjaTemplateInternal, h0, he, hp, hi]
          | some nat =>
            by_cases hd : env.decodeOk nat
            case neg => simp [Py_CallRenderJinjaTemplateInternal, h0, he, hp, hi, hd]
            case pos =>
              refine ⟨?_, ?_, ?_⟩
              · simp [Py_CallRenderJinjaTemplateInternal, h0, he, hp, hi, hd]
              · simp [Py_CallRenderJinjaTemplateInternal, h0, he, hp, hi, hd]
              · intro r hr
                simp [Py_CallRenderJinjaTemplateInternal, h0, he, hp, hi, hd] at hr
                exact ⟨t, nat, rfl, hi, by simpa using hd, by rw [hr]⟩

/-- Full characterization of the internal lookup call, as for the render
path. -/
theorem lookup_internal_char (env : PyEnv) (s : CState) (input : Option String) :
    (Py_CallGetModelChatTemplateInternal env s input).live = [] ∧
    ((Py_CallGetModelChatTemplateInternal env s input).result = none →
      (Py_CallGetModelChatTemplateInternal env s input).diags ≠ []) ∧
    (∀ r, (Py_CallGetModelChatTemplateInternal env s input).result = some r →
      ∃ f t nat, s.g_get_model_chat_template_func = some f ∧ input = some t ∧
        env.invoke (some f) t = some nat ∧
        env.decodeOk nat = true ∧ r = strdup nat) := by
  by_cases h0 : s.g_python_initialized
  case neg => simp [Py_CallGetModelChatTemplateInternal, h0]
  case pos =>
    cases hf : s.g_get_model_chat_template_func with
    | none => simp [Py_CallGetModelChatTemplateInternal, h0, hf]
    | some f =>
      by_cases hc : env.callableCheck f
      case neg => simp [Py_CallGetModelChatTemplateInternal, h0, hf, hc]
      case pos =>
        cases input with
        | none => simp [Py_CallGetModelChatTemplateInternal, h0, hf, hc]
        | some t =>
          by_cases he : env.encodeOk t
          case neg => simp [Py_CallGetModelChatTemplateInternal, h0, hf, hc, he]
          case pos =>
            by_cases hp : env.packOk t
            case neg => simp [Py_CallGetModelChatTemplateInternal, h0, hf, hc, he, hp]
            case pos =>
              cases hi : env.invoke (some f) t with
              | none => simp [Py_CallGetModelChatTemplateInternal, h0, hf, hc, he, hp, hi]
              | some nat =>
                by_cases hd : env.decodeOk nat
                case neg =>
                  simp [Py_CallGetModelChatTemplateInternal, h0, hf, hc, he, hp, hi, hd]
                case pos =>
                  refine ⟨?_, ?_, ?_⟩
                  · simp [Py_CallGetModelChatTemplateInternal, h0, hf, hc, he, hp, hi, hd]
                  · simp [Py_CallGetModelChatTemplateInternal, h0, hf, hc, he, hp, hi, hd]
                  · intro r hr
                    simp [Py_CallGetModelChatTemplateInternal, h0, hf, hc, he, hp, hi, hd] at hr
                    exact ⟨f, t, nat, rfl, rfl, hi, by simpa using hd, by rw [hr]⟩

/-- A null input makes the internal render call return no result. -/
theorem render_internal_null (env : PyEnv) (s : CState) :
    (Py_CallRenderJinjaTemplateInternal env s none).result = none := by
  by_cases h0 : s.pyRuntimeUp <;> simp [Py_CallRenderJinjaTemplateInternal, h0]

/-- A null input makes the internal lookup call return no result. -/
theorem lookup_internal_null (env : PyEnv) (s : CState) :
    (Py_CallGetModelChatTemplateInternal env s none).result = none := by
  by_cases h0 : s.g_python_initialized
  · cases hf : s.g_get_model_chat_template_func with
    | none => simp [Py_CallGetModelChatTemplateInternal, h0, hf]
    | some f =>
      by_cases hc : env.callableCheck f <;>
        simp [Py_CallGetModelChatTemplateInternal, h0, hf, hc]
  · simp [Py_CallGetModelChatTemplateInternal, h0]

/-- When invoking the cached render callable on `t` yields no result, the
internal render call returns no result. -/
theorem render_internal_invoke_none (env : PyEnv) (s : CState) (t : String)
    (h : env.invoke s.g_render_jinja_template_func t = none) :
    (Py_CallRenderJinjaTemplateInternal env s (some t)).result = none := by
  by_cases h0 : s.pyRuntimeUp
  · by_cases he : env.encodeOk t
    · by_cases hp : env.packOk t
      · simp [Py_CallRenderJinjaTemplateInternal, h0, he, hp, h]
      · simp [Py_CallRenderJinjaTemplateInternal, h0, he, hp]
    · simp [Py_CallRenderJinjaTemplateInternal, h0, he]
  · simp [Py_CallRenderJinjaTemplateInternal, h0]

/-- When invoking the cached lookup callable on `t` yields no result, the
internal lookup call returns no result. -/
theorem lookup_internal_invoke_none (env : PyEnv) (s : CState) (t : String)
    (h : env.invoke s.g_get_model_chat_template_func t = none) :
    (Py_CallGetModelChatTemplateInternal env s (some t)).result = none := by
  by_cases h0 : s.g_python_initialized
  · cases hf : s.g_get_model_chat_template_func with
    | none => simp [Py_CallGetModelChatTemplateInternal, h0, hf]
    | some f =>
      rw [hf] at h
      by_cases hc : env.callableCheck f
      · by_cases he : env.encodeOk t
        · by_cases hp : env.packOk t
          · simp [Py_CallGetModelChatTemplateInternal, h0, hf, hc, he, hp, h]
          · simp [Py_CallGetModelChatTemplateInternal, h0, hf, hc, he, hp]
        · simp [Py_CallGetModelChatTemplateInternal, h0, hf, hc, he]
      · simp [Py_CallGetModelChatTemplateInternal, h0, hf, hc]
  · simp [Py_CallGetModelChatTemplateInternal, h0]

/-- Modelled from the spec: the entry points of the Python module
`render_jinja_template_wrapper` are repository code that is not under
`src/`.  The spec requires `Call(selector, "")` to return failure, so the
modelled entry-point behaviour is that invoking a cached callable on the
empty string produces no result. -/
def rejectsEmptyText (env : PyEnv) (f : Option Nat) : Prop :=
  env.invoke f "" = none

/-- C5: for each selector, a Call with a null-equivalent input and a Call
with the empty string both return failure — no result is returned, stale or
fabricated.  The null check is done by the C layer itself; the empty-string
rejection comes from the spec-modelled entry points (`rejectsEmptyText`). -/
theorem call_null_empty_rejected (env : PyEnv) (s : CState)
    (hr : rejectsEmptyText env s.g_render_jinja_template_func)
    (hg : rejectsEmptyText env s.g_get_model_chat_template_func) :
    (Py_CallRenderJinjaTemplate env s none).result = none ∧
    (Py_CallGetModelChatTemplate env s none).result = none ∧
    (Py_CallRenderJinjaTemplate env s (some "")).result = none ∧
    (Py_CallGetModelChatTemplate env s (some "")).result = none := by
  rw [render_wrapper_eq, lookup_wrapper_eq, render_wrapper_eq, lookup_wrapper_eq]
  exact ⟨render_internal_null env s, lookup_internal_null env s,
    render_internal_invoke_none env s "" hr,
    lookup_internal_invoke_none env s "" hg⟩

/-- Witness for input rejection at the fully initialized concrete state. -/
theorem call_null_empty_rejected_witness :
    (Py_CallRenderJinjaTemplate envOk sReady (some "")).result = none ∧
    (Py_CallGetModelChatTemplate envOk sReady (some "")).result = none ∧
    (Py_CallRenderJinjaTemplate envOk sReady none).result = none :=
  ⟨(call_null_empty_rejected envOk sReady rfl rfl).2.2.1,
   (call_null_empty_rejected envOk sReady rfl rfl).2.2.2,
   (call_null_empty_rejected envOk sReady rfl rfl).1⟩

/-- C7: on any failing step of a call (encode, invoke, decode, or a
returned-no-result condition) every intermediate handle created for that
call has been released at return, a diagnostic was emitted, and the result
is failure — nothing is fabricated.  On success the returned text is an
owned duplicate (`strdup`) of exactly the native result of the invocation,
and the native result handle has been released as well. -/
theorem call_cleanup_and_owned_result (env : PyEnv) (s : CState) (input : Option String) :
    (Py_CallRenderJinjaTemplateInternal env s input).live = [] ∧
    ((Py_CallRenderJinjaTemplateInternal env s input).result = none →
      (Py_CallRenderJinjaTemplateInternal env s input).diags ≠ []) ∧
    (∀ r, (Py_CallRenderJinjaTemplateInternal env s input).result = some r →
      ∃ t nat, input = some t ∧
        env.invoke s.g_render_jinja_template_func t = some nat ∧
        env.decodeOk nat = true ∧ r = strdup nat) ∧
    (Py_CallGetModelChatTemplateInternal env s input).live = [] ∧
    ((Py_CallGetModelChatTemplateInternal env s input).result = none →
      (Py_CallGetModelChatTemplateInternal env s input).diags ≠ []) ∧
    (∀ r, (Py_CallGetModelChatTemplateInternal env s input).result = some r →
      ∃ f t nat, s.g_get_model_chat_template_func = some f ∧ input = some t ∧
        env.invoke (some f) t = some nat ∧
        env.decodeOk nat = true ∧ r = strdup nat) :=
  ⟨(render_internal_char env s input).1, (render_internal_char env s input).2.1,
   (render_internal_char env s input).2.2,
   (lookup_internal_char env s input).1, (lookup_internal_char env s input).2.1,
   (lookup_internal_char env s input).2.2⟩

/-- Witness for the cleanup contract at a concrete failing input. -/
theorem call_cleanup_and_owned_result_witness :
    (Py_CallRenderJinjaTemplateInternal envOk sReady none).live = [] ∧
    (Py_CallRenderJinjaTemplateInternal envOk sReady none).diags ≠ [] ∧
    (Py_CallGetModelChatTemplateInternal envOk sReady none).live = [] ∧
    (Py_CallGetModelChatTemplateInternal envOk sReady none).diags ≠ [] := by
  have h := call_cleanup_and_owned_result envOk sReady none
  exact ⟨h.1, h.2.1 (by decide), h.2.2.2.1, h.2.2.2.2.1 (by decide)⟩

/-- C10: the two selector paths guard the cached handle asymmetrically.
The lookup path fails with no invocation when its cached handle is absent,
and likewise when it is present but not callable; the render path performs
no such check and, with the runtime up, a non-null input and marshalling
succeeding, reaches the invoke step exactly once even when its cached
handle is NULL. -/
theorem selector_guard_asymmetry (env : PyEnv) (s : CState) (t : String) :
    (s.g_get_model_chat_template_func = none →
      (Py_CallGetModelChatTemplateInternal env s (some t)).result = none ∧
      (Py_CallGetModelChatTemplateInternal env s (some t)).invokeCount = 0) ∧
    (∀ f, s.g_get_model_chat_template_func = some f → env.callableCheck f = false →
      (Py_CallGetModelChatTemplateInternal env s (some t)).result = none ∧
      (Py_CallGetModelChatTemplateInternal env s (some t)).invokeCount = 0) ∧
    (s.pyRuntimeUp = true → s.g_render_jinja_template_func = none →
      env.encodeOk t = true → env.packOk t = true →
      (Py_CallRenderJinjaTemplateInternal env s (some t)).invokeCount = 1) := by
  refine ⟨?_, ?_, ?_⟩
  · intro hf
    by_cases h0 : s.g_python_initialized <;>
      simp [Py_CallGetModelChatTemplateInternal, h0, hf]
  · intro f hf hc
    by_cases h0 : s.g_python_initialized <;>
      simp [Py_CallGetModelChatTemplateInternal, h0, hf, hc]
  · intro h0 hf he hp
    cases hi : env.invoke s.g_render_jinja_template_func t with
    | none => simp [Py_CallRenderJinjaTemplateInternal, h0, he, hp, hi]
    | some nat =>
      by_cases hd : env.decodeOk nat <;>
        simp [Py_CallRenderJinjaTemplateInternal, h0, he, hp, hi, hd]

/-- Witness for the guard asymmetry: before any cache initialization the
lookup path fails with no invocation while the render path reaches the
invoke step with its NULL handle. -/
theorem selector_guard_asymmetry_witness :
    (Py_CallGetModelChatTemplateInternal envOk sPreCache (some "req")).result = none ∧
    (Py_CallGetModelChatTemplateInternal envOk sPreCache (some "req")).invokeCount = 0 ∧
    (Py_CallRenderJinjaTemplateInternal envOk sPreCache (some "req")).invokeCount = 1 := by
  have h := selector_guard_asymmetry envOk sPreCache "req"
  exact ⟨(h.1 rfl).1, (h.1 rfl).2, h.2.2 rfl rfl rfl rfl⟩

/-- C1: evaluation of `Py_InitChatTemplateModule` at an environment where
the module imports and `render_jinja_template` resolves but resolving
`get_model_chat_template` fails.  The call fails and `g_initialized` stays
false, but a partial set of handles remains adopted in the shared cache —
the module handle and the render-function handle are still present — and a
subsequent render Call succeeds while only the lookup Call fails. -/
theorem initCache_partial_adoption :
    (Py_InitChatTemplateModule envPartial sPreCache).1 = -1 ∧
    ((Py_InitChatTemplateModule envPartial sPreCache).2.1).g_initialized = false ∧
    ((Py_InitChatTemplateModule envPartial sPreCache).2.1).g_chat_template_module = some 10 ∧
    ((Py_InitChatTemplateModule envPartial sPreCache).2.1).g_render_jinja_template_func = some 30 ∧
    ((Py_InitChatTemplateModule envPartial sPreCache).2.1).g_get_model_chat_template_func = none ∧
    (Py_CallRenderJinjaTemplate envPartial
      ((Py_InitChatTemplateModule envPartial sPreCache).2.1) (some "req")).result =
        some (strdup "rendered:req") ∧
    (Py_CallGetModelChatTemplate envPartial
      ((Py_InitChatTemplateModule envPartial sPreCache).2.1) (some "req")).result = none := by
  decide

/-- A fully initialized state on which `Py_FinalizeGo` has run once more
(so the finalized flag is set). -/
def sFin : CState :=
  ⟨some 10, some 30, some 31, true, true, true, true, 42, true, 1, true, true⟩

/-- Refutation of the claim that `Py_ReinitializeGo` resets all
ProcessRuntimeState flags to the uninitialized state: from a state with the
finalized flag set, a fully successful Reinitialize leaves the finalized
flag set — it is never reset. -/
theorem reinit_keeps_finalized_cex :
    (Py_ReinitializeGo envOk 42 sFin).1 = 0 ∧
    ((Py_ReinitializeGo envOk 42 sFin).2.1).g_finalized = true := by
  decide

/-- C6 (amended): `Py_ReinitializeGo` resets the three initialization flags
(runtime-initialized, process-initialized, cache-initialized) — but not the
finalized flag — releases all three cached handles, then calls
`Py_InitializeGo` followed by `Py_InitChatTemplateModule`, and returns the
first failure status encountered among those two steps, or success. -/
theorem reinit_reset_release_then_sequence (env : PyEnv) (pid : Nat) (s : CState) :
    (resetForReinit s).g_initialized = false ∧
    (resetForReinit s).g_python_initialized = false ∧
    (resetForReinit s).g_process_initialized = false ∧
    (resetForReinit s).g_render_jinja_template_func = none ∧
    (resetForReinit s).g_get_model_chat_template_func = none ∧
    (resetForReinit s).g_chat_template_module = none ∧
    (resetForReinit s).g_finalized = s.g_finalized ∧
    ((Py_InitializeGo env pid (resetForReinit s)).1 ≠ 0 →
      (Py_ReinitializeGo env pid s).1 = (Py_InitializeGo env pid (resetForReinit s)).1) ∧
    ((Py_InitializeGo env pid (resetForReinit s)).1 = 0 →
      (Py_ReinitializeGo env pid s).1 =
        (Py_InitChatTemplateModule env (Py_InitializeGo env pid (resetForReinit s)).2.1).1) := by
  refine ⟨rfl, rfl, rfl, rfl, rfl, rfl, rfl, ?_, ?_⟩
  · intro hne
    simp only [Py_ReinitializeGo]
    rw [if_pos hne]
  · intro hz
    simp only [Py_ReinitializeGo]
    rw [if_neg (not_not_intro hz)]
    by_cases h2 :
        (Py_InitChatTemplateModule env (Py_InitializeGo env pid (resetForReinit s)).2.1).1 = 0
    · rw [if_neg (not_not_intro h2), h2]
    · rw [if_pos h2]

/-- Witness for the reinitialize sequencing at a concrete failing
environment: lock allocation fails, so Reinitialize returns the failure
status of the Initialize step. -/
theorem reinit_reset_release_then_sequence_witness :
    (Py_ReinitializeGo envFail 7 initState).1 =
      (Py_InitializeGo envFail 7 (resetForReinit initState)).1 :=
  (reinit_reset_release_then_sequence envFail 7 initState).2.2.2.2.2.2.2.1 (by decide)

/-- C9: the check-and-set sections of `Py_InitializeGo` and
`Py_InitChatTemplateModule` acquire their lock with `NOWAIT_LOCK` and never
check the acquisition result, so they do not execute under mutual
exclusion.  Under the schedule A-acquire, B-acquire (B fails to get the
held lock but proceeds anyway), A-check, B-check, both threads stand inside
the initialization body at once, and running both to completion executes
the body — and for `Py_InitializeGo` starts the runtime — twice. -/
theorem nowait_check_and_set_race :
    (InitRace.runSched [false, true, false, true] InitRace.raceStart).pcA =
      InitRace.Pc.body ∧
    (InitRace.runSched [false, true, false, true] InitRace.raceStart).pcB =
      InitRace.Pc.body ∧
    (InitRace.runSched [false, true, false, true, false, true]
      InitRace.raceStart).bodyRuns = 2 := by
  decide
